import Mathlib

/-!
Shallow embedding of the Huntio backend: the session protocol of
`src/server/src/controllers/auth.controller.ts` together with the services it
calls (`jwt.service.ts`, `refreshTokens.service.ts`, `users.service.ts`,
`cookies.service.ts`, `util/crypto.util.ts`, `util/helper.ts`), the
authentication middleware `authenticateToken.middleware.ts`, and the
job-application CRUD layer (`applications.controller.ts`,
`applications.service.ts`).

Conventions of the embedding:
- Randomness (`randomUUID`) and the clock are passed as explicit arguments.
- The Prisma store is a list of records; Prisma calls that throw on a missing
  row are modelled with `Option` (`none` = thrown, caught by the handler where
  the source has a try/catch).
- `bcrypt` and `jsonwebtoken` are external primitives; they are modelled from
  the contracts the spec gives them (sections 4.1 and 4.3), with the digest
  and the signed token carrying exactly the data those contracts expose.
- A handler whose source can throw outside any try/catch returns `Except`.
-/

/-- JsValue models a JavaScript runtime value as far as the request-body
shape checks need it: primitives, arrays and plain objects. -/
inductive JsValue where
  | undefinedValue
  | null
  | boolean (b : Bool)
  | number (n : Int)
  | str (s : String)
  | arr (elems : List JsValue)
  | obj (fields : List (String × JsValue))

/-- jsTypeof models the JavaScript typeof operator on a JsValue. -/
def jsTypeof : JsValue → String
  | .undefinedValue => "undefined"
  | .null => "object"
  | .boolean _ => "boolean"
  | .number _ => "number"
  | .str _ => "string"
  | .arr _ => "object"
  | .obj _ => "object"

/-- jsIsNull models the strict comparison value === null. -/
def jsIsNull : JsValue → Bool
  | .null => true
  | _ => false

/-- jsIsArray models Array.isArray. -/
def jsIsArray : JsValue → Bool
  | .arr _ => true
  | _ => false

/-- isObject embeds src/server/src/util/helper.ts: the value is not null, has
object type, and is not an array. -/
def isObject (value : JsValue) : Bool :=
  !(jsIsNull value) && (jsTypeof value == "object") && !(jsIsArray value)

/-- jsGet models the property access body.key used by the controllers on a
request body: a missing key, or a base that is not a plain object, yields
undefined. -/
def jsGet (v : JsValue) (key : String) : JsValue :=
  match v with
  | .obj fields =>
    match fields.find? (fun f => f.1 == key) with
    | some f => f.2
    | none => .undefinedValue
  | _ => .undefinedValue

/-- JsErr models a thrown JavaScript error from a library call (a bcrypt call
on non-string data, or a Prisma validation or constraint failure). -/
inductive JsErr where
  | typeError
deriving DecidableEq

/-- BcryptDigest models a bcrypt digest of a value of type alpha. Modelled
from the spec (section 4.3, Credential Hasher): bcrypt is an external one-way
primitive whose digest is recognised by compare exactly on the hashed
plaintext, so the model lets the digest be determined by its input. -/
structure BcryptDigest (α : Type) where
  data : α
deriving DecidableEq

/-- bhash embeds hash of src/server/src/util/crypto.util.ts (bcrypt.hash with
cost 10), under the digest model of BcryptDigest. -/
def bhash {α : Type} (str : α) : BcryptDigest α := ⟨str⟩

/-- bcompare embeds compare of src/server/src/util/crypto.util.ts
(bcrypt.compare): true exactly when the digest is the digest of the data. -/
def bcompare {α : Type} [DecidableEq α] (data : α) (encrypted : BcryptDigest α) : Bool :=
  decide (data = encrypted.data)

/-- hashJs models awaiting hash(req.body.password) on a raw body field:
bcrypt rejects non-string data, which surfaces as a thrown error inside the
try/catch of the calling controller. -/
def hashJs (v : JsValue) : Except JsErr (BcryptDigest String) :=
  match v with
  | .str s => .ok (bhash s)
  | _ => .error .typeError

/-- compareJs models awaiting compare(req.body.password, stored) on a raw
body field: bcrypt rejects non-string data with a thrown error. -/
def compareJs (v : JsValue) (encrypted : BcryptDigest String) : Except JsErr Bool :=
  match v with
  | .str s => .ok (bcompare s encrypted)
  | _ => .error .typeError

/-- SignedToken models the information content of a string produced by
jwt.sign: subject, jti, the signing secret, the issue time and the lifetime
in seconds. Modelled from the spec (section 4.1, Token Signer): jsonwebtoken
is an external primitive. -/
structure SignedToken where
  sub : String
  jti : String
  secret : String
  iat : Nat
  ttl : Nat
deriving DecidableEq

/-- JwtString models a JavaScript string sitting in a token position: either
an arbitrary plain string or the output of jwt.sign. -/
inductive JwtString where
  | raw (s : String)
  | signed (tok : SignedToken)
deriving DecidableEq

/-- JwtString.isEmpty models the check s.length === 0 on such a string; a
signed token string is never empty. -/
def JwtString.isEmpty : JwtString → Bool
  | .raw s => s.isEmpty
  | .signed _ => false

/-- JwtPayload embeds the payload shape built by createJwtPayload of
src/server/src/services/jwt.service.ts. -/
structure JwtPayload where
  sub : String
  jti : String
deriving DecidableEq

/-- JwtError models the errors thrown by jwt.verify: a malformed token
string, a signature made with another secret, or an expired token. -/
inductive JwtError where
  | malformed
  | invalidSignature
  | expired
deriving DecidableEq

/-- jwtSign models jwt.sign(payload, secret) with expiresIn of ttl seconds at
issue time now. Modelled from the spec (section 4.1). -/
def jwtSign (payload : JwtPayload) (secret : String) (now ttl : Nat) : JwtString :=
  .signed { sub := payload.sub, jti := payload.jti, secret := secret, iat := now, ttl := ttl }

/-- jwtVerify models jwt.verify(token, secret) evaluated at time now: a
malformed string and a secret mismatch fail, and the token is expired once
now reaches the issue time plus the lifetime. Modelled from the spec
(section 4.1). -/
def jwtVerify (token : JwtString) (secret : String) (now : Nat) : Except JwtError JwtPayload :=
  match token with
  | .raw _ => .error .malformed
  | .signed tok =>
    if tok.secret ≠ secret then .error .invalidSignature
    else if tok.iat + tok.ttl ≤ now then .error .expired
    else .ok { sub := tok.sub, jti := tok.jti }

/-- generateAccessToken embeds src/server/src/services/jwt.service.ts: sign
the payload with the access secret and a 15 minute expiry. -/
def generateAccessToken (payload : JwtPayload) (secretAccessKey : String) (now : Nat) : JwtString :=
  jwtSign payload secretAccessKey now (15 * 60)

/-- generateRefreshToken embeds src/server/src/services/jwt.service.ts: sign
the payload with the refresh secret and a 7 day expiry. -/
def generateRefreshToken (payload : JwtPayload) (secretRefreshKey : String) (now : Nat) : JwtString :=
  jwtSign payload secretRefreshKey now (7 * 24 * 60 * 60)

/-- createJwtPayload embeds src/server/src/services/jwt.service.ts. -/
def createJwtPayload (sub : String) (jti : String) : JwtPayload :=
  { sub := sub, jti := jti }

/-- User embeds the Prisma User model (prisma/migrations, init migration):
unique id, unique email, username, hashed password. -/
structure User where
  id : String
  email : String
  username : String
  hashedPassword : BcryptDigest String
deriving DecidableEq

/-- RefreshToken embeds the Prisma RefreshToken model (prisma/migrations,
jit_col migration): id, hash of the current refresh token, jti, owning user;
the table has a unique index on userId. -/
structure RefreshToken where
  id : String
  hash : BcryptDigest JwtString
  jti : String
  userId : String
deriving DecidableEq

/-- findUserById embeds src/server/src/services/users.service.ts
(prisma.user.findUnique on id). -/
def findUserById (users : List User) (userId : String) : Option User :=
  users.find? (fun u => u.id == userId)

/-- findUserByEmail embeds src/server/src/services/users.service.ts
(prisma.user.findUnique on email); Prisma rejects a non-string argument in
the unique where clause with a thrown validation error. -/
def findUserByEmail (users : List User) (email : JsValue) : Except JsErr (Option User) :=
  match email with
  | .str s => .ok (users.find? (fun u => u.email == s))
  | _ => .error .typeError

/-- createUser embeds src/server/src/services/users.service.ts
(prisma.user.create): non-string fields fail Prisma validation and a
duplicate email violates the unique index, both thrown. -/
def createUser (users : List User) (username email : JsValue)
    (hashedPassword : BcryptDigest String) (freshUserId : String) :
    Except JsErr (User × List User) :=
  match username, email with
  | .str un, .str em =>
    if users.any (fun u => u.email == em) then .error .typeError
    else
      .ok ({ id := freshUserId, email := em, username := un, hashedPassword := hashedPassword },
        users ++ [{ id := freshUserId, email := em, username := un, hashedPassword := hashedPassword }])
  | _, _ => .error .typeError

/-- findRefreshTokenByUserId embeds
src/server/src/services/refreshTokens.service.ts
(prisma.refreshToken.findUnique on userId). -/
def findRefreshTokenByUserId (rts : List RefreshToken) (userId : String) : Option RefreshToken :=
  match rts with
  | [] => none
  | r :: rest => if r.userId == userId then some r else findRefreshTokenByUserId rest userId

/-- updateHashOfRefreshTokenByUserId embeds
src/server/src/services/refreshTokens.service.ts
(prisma.refreshToken.update on userId, setting hash and jti); Prisma update
throws when no row matches, modelled as none. -/
def updateHashOfRefreshTokenByUserId (rts : List RefreshToken) (userId : String)
    (hash : BcryptDigest JwtString) (jti : String) : Option (List RefreshToken) :=
  match rts with
  | [] => none
  | r :: rest =>
    if r.userId == userId then some ({ r with hash := hash, jti := jti } :: rest)
    else (updateHashOfRefreshTokenByUserId rest userId hash jti).map (fun l => r :: l)

/-- upsertHashOfRefreshTokenByUserId embeds
src/server/src/services/refreshTokens.service.ts
(prisma.refreshToken.upsert on userId): update hash and jti in place when a
row exists, otherwise create a fresh row. -/
def upsertHashOfRefreshTokenByUserId (rts : List RefreshToken) (userId : String)
    (hash : BcryptDigest JwtString) (jti : String) (freshRecordId : String) : List RefreshToken :=
  match rts with
  | [] => [{ id := freshRecordId, hash := hash, jti := jti, userId := userId }]
  | r :: rest =>
    if r.userId == userId then { r with hash := hash, jti := jti } :: rest
    else r :: upsertHashOfRefreshTokenByUserId rest userId hash jti freshRecordId

/-- deleteRefreshTokenByUserId embeds
src/server/src/services/refreshTokens.service.ts
(prisma.refreshToken.delete on userId); Prisma delete throws when no row
matches, modelled as none. -/
def deleteRefreshTokenByUserId (rts : List RefreshToken) (userId : String) :
    Option (List RefreshToken) :=
  match rts with
  | [] => none
  | r :: rest =>
    if r.userId == userId then some rest
    else (deleteRefreshTokenByUserId rest userId).map (fun l => r :: l)

/-- createRefreshToken embeds
src/server/src/services/refreshTokens.service.ts
(prisma.refreshToken.create): a second row for the same user violates the
unique index on userId and throws. -/
def createRefreshToken (rts : List RefreshToken) (hash : BcryptDigest JwtString)
    (userId : String) (jti : String) (freshRecordId : String) : Option (List RefreshToken) :=
  if rts.any (fun r => r.userId == userId) then none
  else some (rts ++ [{ id := freshRecordId, hash := hash, jti := jti, userId := userId }])

/-- Env models the two signing secrets read from the process environment;
none models a missing variable. -/
structure Env where
  accessTokenSecret : Option String
  refreshTokenSecret : Option String
deriving DecidableEq

/-- HttpResponse models the observable output of a handler: status code,
JSON message, tokens in the body, the refreshToken cookie written by
setRefreshCookie, and whether the cookie was cleared. -/
structure HttpResponse where
  status : Nat
  message : Option String := none
  accessToken : Option JwtString := none
  refreshTokenBody : Option JwtString := none
  refreshCookie : Option JwtString := none
  cookieCleared : Bool := false
deriving DecidableEq

/-- setRefreshCookie embeds src/server/src/services/cookies.service.ts:
store the given token in the refreshToken cookie slot of the response
(HTTP-only, SameSite lax, path /auth/, 7 day max age). -/
def setRefreshCookie (res : HttpResponse) (refreshToken : JwtString) : HttpResponse :=
  { res with refreshCookie := some refreshToken }

/-- register embeds src/server/src/controllers/auth.controller.ts register:
gate on isObject, hash the password, create the user, check the secrets,
mint both tokens with fresh jtis, store the hashed refresh token, set the
cookie and answer 201 with the access token; every thrown step lands in the
catch and answers 500. -/
def register (env : Env) (users : List User) (rts : List RefreshToken) (body : JsValue)
    (freshUserId accessTokenJti refreshTokenJti freshRecordId : String) (now : Nat) :
    HttpResponse × List User × List RefreshToken :=
  if !(isObject body) then
    ({ status := 400, message := some "The request body is not an object" }, users, rts)
  else
    match hashJs (jsGet body "password") with
    | .error _ => ({ status := 500 }, users, rts)
    | .ok hashedPassword =>
      match createUser users (jsGet body "username") (jsGet body "email") hashedPassword freshUserId with
      | .error _ => ({ status := 500 }, users, rts)
      | .ok (createdUser, users1) =>
        match env.refreshTokenSecret, env.accessTokenSecret with
        | some secretRefreshKey, some secretAccessKey =>
          let accessToken := generateAccessToken (createJwtPayload createdUser.id accessTokenJti) secretAccessKey now
          let refreshToken := generateRefreshToken (createJwtPayload createdUser.id refreshTokenJti) secretRefreshKey now
          let hashedRefreshToken := bhash refreshToken
          match createRefreshToken rts hashedRefreshToken createdUser.id refreshTokenJti freshRecordId with
          | none => ({ status := 500 }, users1, rts)
          | some rts1 =>
            (setRefreshCookie { status := 201, accessToken := some accessToken } refreshToken, users1, rts1)
        | _, _ => ({ status := 500, message := some "Server misconfigured" }, users1, rts)

/-- login embeds src/server/src/controllers/auth.controller.ts login:
gate on isObject, look up the user by email, compare the password, check the
secrets, mint both tokens with fresh jtis, upsert the stored hash and jti,
set the cookie and answer 200 with the access token; the same message is
used for an unknown email and for a wrong password. -/
def login (env : Env) (users : List User) (rts : List RefreshToken) (body : JsValue)
    (accessTokenJti refreshTokenJti freshRecordId : String) (now : Nat) :
    HttpResponse × List RefreshToken :=
  if !(isObject body) then
    ({ status := 400, message := some "The request body is not an object" }, rts)
  else
    match findUserByEmail users (jsGet body "email") with
    | .error _ => ({ status := 500 }, rts)
    | .ok none => ({ status := 401, message := some "Email or password are incorrect" }, rts)
    | .ok (some user) =>
      match compareJs (jsGet body "password") user.hashedPassword with
      | .error _ => ({ status := 500 }, rts)
      | .ok isPasswordCorrect =>
        if !isPasswordCorrect then
          ({ status := 401, message := some "Email or password are incorrect" }, rts)
        else
          match env.refreshTokenSecret, env.accessTokenSecret with
          | some secretRefreshKey, some secretAccessKey =>
            let accessToken := generateAccessToken (createJwtPayload user.id accessTokenJti) secretAccessKey now
            let refreshToken := generateRefreshToken (createJwtPayload user.id refreshTokenJti) secretRefreshKey now
            let hashedRefreshToken := bhash refreshToken
            let rts1 := upsertHashOfRefreshTokenByUserId rts user.id hashedRefreshToken refreshTokenJti freshRecordId
            (setRefreshCookie { status := 200, accessToken := some accessToken } refreshToken, rts1)
          | _, _ => ({ status := 500, message := some "Server misconfigured" }, rts)

/-- logout embeds src/server/src/controllers/auth.controller.ts logout: 400
when the cookie is absent or empty, then jwt.verify OUTSIDE the try block
(a verification failure is thrown out of the handler, modelled as error),
then delete the stored record for the subject and answer 204 with the
cookie cleared; a missing row or a missing user throws inside the try and
answers 500. -/
def logout (env : Env) (users : List User) (rts : List RefreshToken)
    (cookie : Option JwtString) (now : Nat) :
    Except JwtError (HttpResponse × List RefreshToken) :=
  match cookie with
  | none => .ok ({ status := 400 }, rts)
  | some refreshToken =>
    if refreshToken.isEmpty then .ok ({ status := 400 }, rts)
    else
      match env.refreshTokenSecret with
      | none => .ok ({ status := 500, message := some "Server misconfigured" }, rts)
      | some secretRefreshKey =>
        match jwtVerify refreshToken secretRefreshKey now with
        | .error e => .error e
        | .ok decoded =>
          match deleteRefreshTokenByUserId rts decoded.sub with
          | none => .ok ({ status := 500 }, rts)
          | some rts1 =>
            match findUserById users decoded.sub with
            | none => .ok ({ status := 500 }, rts1)
            | some _ =>
              .ok ({ status := 204, cookieCleared := true }, rts1)

/-- refresh embeds src/server/src/controllers/auth.controller.ts refresh:
401 when the cookie is absent or empty; jwt.verify INSIDE the try block, so
a verification failure lands in the catch and answers 500; 403 when no
record is stored for the subject; 403 when the presented token misses the
stored hash or its jti differs from the stored jti; otherwise mint both
tokens with fresh jtis, update the stored hash and jti in place, set the
cookie — note the source passes the OLD presented token to setRefreshCookie
— and answer 200 with both new tokens in the body. -/
def refresh (env : Env) (users : List User) (rts : List RefreshToken)
    (cookie : Option JwtString) (newAccessTokenJti newRefreshTokenJti : String) (now : Nat) :
    HttpResponse × List RefreshToken :=
  match cookie with
  | none => ({ status := 401, message := some "The refresh token is not valid" }, rts)
  | some refreshToken =>
    if refreshToken.isEmpty then
      ({ status := 401, message := some "The refresh token is not valid" }, rts)
    else
      match env.refreshTokenSecret with
      | none => ({ status := 500, message := some "Server misconfigured" }, rts)
      | some secretRefreshKey =>
        match jwtVerify refreshToken secretRefreshKey now with
        | .error _ => ({ status := 500 }, rts)
        | .ok decoded =>
          match env.accessTokenSecret with
          | none => ({ status := 500, message := some "Server misconfigured" }, rts)
          | some secretAccessKey =>
            match findRefreshTokenByUserId rts decoded.sub with
            | none =>
              ({ status := 403, message := some "The user has no refresh token stored in the database" }, rts)
            | some storedRefreshToken =>
              if !(bcompare refreshToken storedRefreshToken.hash) then
                ({ status := 403, message := some "The refresh token is not valid" }, rts)
              else if decoded.jti != storedRefreshToken.jti then
                ({ status := 403, message := some "The refresh token is not valid" }, rts)
              else
                let newAccessToken := generateAccessToken (createJwtPayload decoded.sub newAccessTokenJti) secretAccessKey now
                let newRefreshToken := generateRefreshToken (createJwtPayload decoded.sub newRefreshTokenJti) secretRefreshKey now
                let newHashedRefreshToken := bhash newRefreshToken
                match updateHashOfRefreshTokenByUserId rts decoded.sub newHashedRefreshToken newRefreshTokenJti with
                | none => ({ status := 500 }, rts)
                | some rts1 =>
                  match findUserById users decoded.sub with
                  | none => ({ status := 500 }, rts1)
                  | some _ =>
                    (setRefreshCookie
                      { status := 200, accessToken := some newAccessToken,
                        refreshTokenBody := some newRefreshToken } refreshToken, rts1)

/-- AuthHeader models the Authorization header as the middleware sees it:
absent, an array of header values, or a single string given by the list of
its space-separated words (the result of the split in the source). -/
inductive AuthHeader where
  | missing
  | array
  | header (words : List JwtString)
deriving DecidableEq

/-- MiddlewareOutcome models what authenticateToken does with a request:
answer a response without calling next, call next with req.userId set, or
throw (the source has no try/catch around jwt.verify). -/
inductive MiddlewareOutcome where
  | halted (res : HttpResponse)
  | proceed (userId : String)
  | thrown (e : JwtError)
deriving DecidableEq

/-- authenticateToken embeds
src/server/src/middleware/authenticateToken.middleware.ts: 401 on a missing
header or an array, 401 on a scheme other than Bearer or a missing token
word, 500 on a missing access secret; jwt.verify has no surrounding
try/catch, so a verification failure is thrown out of the middleware. -/
def authenticateToken (env : Env) (authHeader : AuthHeader) (now : Nat) : MiddlewareOutcome :=
  match authHeader with
  | .missing => .halted { status := 401, message := some "Missing Authorization header" }
  | .array => .halted { status := 401, message := some "Missing Authorization header" }
  | .header words =>
    match words with
    | scheme :: token :: _ =>
      if scheme != JwtString.raw "Bearer" || token.isEmpty then
        .halted { status := 401, message := some "Invalid Authorization header format" }
      else
        match env.accessTokenSecret with
        | none => .halted { status := 500, message := some "Server misconfigured" }
        | some secretAccessKey =>
          match jwtVerify token secretAccessKey now with
          | .error e => .thrown e
          | .ok decoded => .proceed decoded.sub
    | _ => .halted { status := 401, message := some "Invalid Authorization header format" }

/-- JobApplication embeds the Prisma JobApplication model
(prisma/migrations, init migration). -/
structure JobApplication where
  id : String
  companyName : String
  jobTitle : String
  salary : Int
  status : String
  workModel : String
  userId : String
deriving DecidableEq

/-- ApplicationUpdate models the already-parsed update data of a PATCH body
(the five fields updateApplicationById writes). -/
structure ApplicationUpdate where
  companyName : String
  jobTitle : String
  workModel : String
  salary : Int
  status : String
deriving DecidableEq

/-- findApplicationsByUserId embeds
src/server/src/services/applications.service.ts (prisma findMany on
userId). -/
def findApplicationsByUserId (apps : List JobApplication) (userId : String) : List JobApplication :=
  apps.filter (fun a => a.userId == userId)

/-- deleteApplicationById embeds
src/server/src/services/applications.service.ts (prisma delete where the id
alone matches — no userId in the where clause); a missing row throws,
modelled as none. -/
def deleteApplicationById (apps : List JobApplication) (applicationId : String) :
    Option (List JobApplication) :=
  match apps with
  | [] => none
  | a :: rest =>
    if a.id == applicationId then some rest
    else (deleteApplicationById rest applicationId).map (fun l => a :: l)

/-- updateApplicationById embeds
src/server/src/services/applications.service.ts (prisma update where the id
alone matches — no userId in the where clause); a missing row throws,
modelled as none. -/
def updateApplicationById (apps : List JobApplication) (application : ApplicationUpdate)
    (applicationId : String) : Option (List JobApplication) :=
  match apps with
  | [] => none
  | a :: rest =>
    if a.id == applicationId then
      some ({ a with
              companyName := application.companyName,
              jobTitle := application.jobTitle,
              workModel := application.workModel,
              salary := application.salary,
              status := application.status } :: rest)
    else (updateApplicationById rest application applicationId).map (fun l => a :: l)

/-- ControllerErr models an error thrown out of an application controller
(these controllers have no try/catch): a Prisma throw on a missing row, or
the member access on a null user. -/
inductive ControllerErr where
  | dbError
  | typeError
deriving DecidableEq

/-- deleteApplication embeds
src/server/src/controllers/applications.controller.ts deleteApplication:
delete by the route id, look the requester up for logging, answer 204;
the requesting userId is never part of the delete query. -/
def deleteApplication (users : List User) (apps : List JobApplication)
    (userId applicationId : String) :
    Except ControllerErr (HttpResponse × List JobApplication) :=
  match deleteApplicationById apps applicationId with
  | none => .error .dbError
  | some apps1 =>
    match findUserById users userId with
    | none => .error .typeError
    | some _ => .ok ({ status := 204 }, apps1)

/-- updateApplication embeds
src/server/src/controllers/applications.controller.ts updateApplication:
400 on a non-object body (modelled as none), update by the route id, look
the requester up for logging, answer 204; the requesting userId is never
part of the update query. -/
def updateApplication (users : List User) (apps : List JobApplication)
    (userId applicationId : String) (body : Option ApplicationUpdate) :
    Except ControllerErr (HttpResponse × List JobApplication) :=
  match body with
  | none => .ok ({ status := 400, message := some "The request body is not an object" }, apps)
  | some application =>
    match updateApplicationById apps application applicationId with
    | none => .error .dbError
    | some apps1 =>
      match findUserById users userId with
      | none => .error .typeError
      | some _ => .ok ({ status := 204 }, apps1)

/-- getAllApplications embeds
src/server/src/controllers/applications.controller.ts getAllApplications:
the 200 body is the list of the requesting user's applications. -/
def getAllApplications (apps : List JobApplication) (userId : String) : List JobApplication :=
  findApplicationsByUserId apps userId

/-- LoginInput bundles the fresh identifiers and the clock value of one
login call (the randomUUID results and Date.now of that call). -/
structure LoginInput where
  accessTokenJti : String
  refreshTokenJti : String
  freshRecordId : String
  now : Nat
deriving DecidableEq

/-- loginStep applies one login call to the refresh-token store, keeping
only the store (the response is recovered separately). -/
def loginStep (env : Env) (users : List User) (body : JsValue)
    (rts : List RefreshToken) (i : LoginInput) : List RefreshToken :=
  (login env users rts body i.accessTokenJti i.refreshTokenJti i.freshRecordId i.now).2

/-- loginSeq applies a sequence of login calls to the refresh-token store,
left to right. -/
def loginSeq (env : Env) (users : List User) (body : JsValue)
    (rts : List RefreshToken) (inputs : List LoginInput) : List RefreshToken :=
  inputs.foldl (loginStep env users body) rts

/-- refreshTokenOfLogin is the refresh token a successful login call signs
for the given user: it depends only on the call input, the user and the
refresh secret. -/
def refreshTokenOfLogin (user : User) (secretRefreshKey : String) (i : LoginInput) : JwtString :=
  generateRefreshToken (createJwtPayload user.id i.refreshTokenJti) secretRefreshKey i.now

/-- countRecordsOfUser counts the stored refresh-token rows of one user. -/
def countRecordsOfUser (rts : List RefreshToken) (userId : String) : Nat :=
  rts.countP (fun r => r.userId == userId)

/-- envC is a concrete configured environment used in concrete runs. -/
def envC : Env := ⟨some "as", some "rs"⟩

/-- aliceC is a concrete stored user used in concrete runs. -/
def aliceC : User := ⟨"u1", "alice@example", "alice", bhash "pw"⟩

/-- bobC is a second concrete stored user used in concrete runs. -/
def bobC : User := ⟨"u2", "bob@example", "bob", bhash "pw2"⟩

/-- tokC is a concrete refresh token signed with the refresh secret of envC
for aliceC, issued at time 0. -/
def tokC : JwtString := .signed ⟨"u1", "j0", "rs", 0, 604800⟩

/-- recC is the stored row holding the hash and jti of tokC. -/
def recC : RefreshToken := ⟨"r1", bhash tokC, "j0", "u1"⟩

/-- bobAppC is a concrete job application owned by bobC. -/
def bobAppC : JobApplication :=
  { id := "app1", companyName := "acme", jobTitle := "dev", salary := 1,
    status := "PENDING", workModel := "REMOTE", userId := "u2" }

/-! Supporting lemmas about the store operations. -/

/-- A bcrypt comparison of a value against its own digest succeeds. -/
theorem bcompare_bhash_self {α : Type} [DecidableEq α] (x : α) :
    bcompare x (bhash x) = true := by
  simp [bcompare, bhash]

/-- A bcrypt comparison of a value against the digest of a different value
fails. -/
theorem bcompare_bhash_ne {α : Type} [DecidableEq α] (x y : α) (h : x ≠ y) :
    bcompare x (bhash y) = false := by
  simp [bcompare, bhash, h]

/-- A found refresh-token row keeps its owner field. -/
theorem userId_of_findRefreshToken (rts : List RefreshToken) (u : String)
    (rec : RefreshToken) (h : findRefreshTokenByUserId rts u = some rec) :
    rec.userId == u := by
  induction rts with
  | nil => simp [findRefreshTokenByUserId] at h
  | cons r rest ih =>
    by_cases hr : r.userId == u
    · simp [findRefreshTokenByUserId, hr] at h
      subst h
      exact hr
    · simp [findRefreshTokenByUserId, hr] at h
      exact ih h

/-- When a row for the user exists, the in-place hash and jti update
succeeds and a lookup afterwards sees the new hash and jti. -/
theorem find_update_refreshToken (rts : List RefreshToken) (u : String)
    (rec : RefreshToken) (hs : BcryptDigest JwtString) (j : String)
    (hfind : findRefreshTokenByUserId rts u = some rec) :
    ∃ rts1, updateHashOfRefreshTokenByUserId rts u hs j = some rts1 ∧
      findRefreshTokenByUserId rts1 u = some { rec with hash := hs, jti := j } := by
  induction rts with
  | nil => simp [findRefreshTokenByUserId] at hfind
  | cons r rest ih =>
    by_cases hr : r.userId == u
    · simp [findRefreshTokenByUserId, hr] at hfind
      subst hfind
      refine ⟨{ r with hash := hs, jti := j } :: rest, ?_, ?_⟩
      · simp [updateHashOfRefreshTokenByUserId, hr]
      · simp [findRefreshTokenByUserId, hr]
    · simp [findRefreshTokenByUserId, hr] at hfind
      obtain ⟨rts1, hup, hfind1⟩ := ih hfind
      refine ⟨r :: rts1, ?_, ?_⟩
      · simp [updateHashOfRefreshTokenByUserId, hr, hup]
      · simp [findRefreshTokenByUserId, hr, hfind1]

/-- A lookup after an upsert for the same user sees the upserted hash and
jti. -/
theorem find_upsert_refreshToken (rts : List RefreshToken) (u : String)
    (hs : BcryptDigest JwtString) (j : String) (fid : String) :
    ∃ rec, findRefreshTokenByUserId (upsertHashOfRefreshTokenByUserId rts u hs j fid) u =
        some rec ∧ rec.hash = hs ∧ rec.jti = j := by
  induction rts with
  | nil =>
    refine ⟨{ id := fid, hash := hs, jti := j, userId := u }, ?_, rfl, rfl⟩
    simp [upsertHashOfRefreshTokenByUserId, findRefreshTokenByUserId]
  | cons r rest ih =>
    by_cases hr : r.userId == u
    · refine ⟨{ r with hash := hs, jti := j }, ?_, rfl, rfl⟩
      simp [upsertHashOfRefreshTokenByUserId, hr, findRefreshTokenByUserId]
    · obtain ⟨rec, hfind, hh, hj⟩ := ih
      refine ⟨rec, ?_, hh, hj⟩
      simp [upsertHashOfRefreshTokenByUserId, hr, findRefreshTokenByUserId, hfind]

/-- An upsert leaves exactly one row for the user when at most one was
there before. -/
theorem count_upsert_refreshToken (rts : List RefreshToken) (u : String)
    (hs : BcryptDigest JwtString) (j : String) (fid : String)
    (hc : countRecordsOfUser rts u ≤ 1) :
    countRecordsOfUser (upsertHashOfRefreshTokenByUserId rts u hs j fid) u = 1 := by
  induction rts with
  | nil => simp [upsertHashOfRefreshTokenByUserId, countRecordsOfUser]
  | cons r rest ih =>
    by_cases hr : r.userId == u
    · have hrest : countRecordsOfUser rest u = 0 := by
        simp [countRecordsOfUser, List.countP_cons, hr] at hc
        simpa [countRecordsOfUser] using hc
      simp [upsertHashOfRefreshTokenByUserId, hr, countRecordsOfUser, List.countP_cons,
        hrest, countRecordsOfUser] at *
      simpa [countRecordsOfUser] using hrest
    · have hc1 : countRecordsOfUser rest u ≤ 1 := by
        simpa [countRecordsOfUser, List.countP_cons, hr] using hc
      have := ih hc1
      simp [upsertHashOfRefreshTokenByUserId, hr, countRecordsOfUser, List.countP_cons]
      simpa [countRecordsOfUser] using this

/-- A user with no stored row is not found. -/
theorem find_none_of_count_zero (rts : List RefreshToken) (u : String)
    (hc : countRecordsOfUser rts u = 0) :
    findRefreshTokenByUserId rts u = none := by
  induction rts with
  | nil => simp [findRefreshTokenByUserId]
  | cons r rest ih =>
    by_cases hr : r.userId == u
    · simp [countRecordsOfUser, List.countP_cons, hr] at hc
    · have : countRecordsOfUser rest u = 0 := by
        simpa [countRecordsOfUser, List.countP_cons, hr] using hc
      simp [findRefreshTokenByUserId, hr, ih this]

/-- Deleting the row of a user that had at most one row leaves the user
without a row. -/
theorem find_none_after_delete (rts rts1 : List RefreshToken) (u : String)
    (hc : countRecordsOfUser rts u ≤ 1)
    (hdel : deleteRefreshTokenByUserId rts u = some rts1) :
    findRefreshTokenByUserId rts1 u = none := by
  induction rts generalizing rts1 with
  | nil => simp [deleteRefreshTokenByUserId] at hdel
  | cons r rest ih =>
    by_cases hr : r.userId == u
    · simp [deleteRefreshTokenByUserId, hr] at hdel
      subst hdel
      apply find_none_of_count_zero
      simp [countRecordsOfUser, List.countP_cons, hr] at hc
      simpa [countRecordsOfUser] using hc
    · simp [deleteRefreshTokenByUserId, hr] at hdel
      obtain ⟨rest1, hdel1, hcons⟩ := hdel
      subst hcons
      have hc1 : countRecordsOfUser rest u ≤ 1 := by
        simpa [countRecordsOfUser, List.countP_cons, hr] using hc
      simp [findRefreshTokenByUserId, hr, ih rest1 hc1 hdel1]

/-- On a correct email and password and configured secrets, login answers
200 with a fresh access token, sets the fresh refresh token as the cookie,
and upserts its hash and jti. -/
theorem login_success (env : Env) (users : List User) (rts : List RefreshToken)
    (body : JsValue) (a r f : String) (n : Nat) (user : User) (rsec asec : String)
    (hb : isObject body = true)
    (he : findUserByEmail users (jsGet body "email") = .ok (some user))
    (hp : compareJs (jsGet body "password") user.hashedPassword = .ok true)
    (hrs : env.refreshTokenSecret = some rsec)
    (has : env.accessTokenSecret = some asec) :
    login env users rts body a r f n =
      ({ status := 200,
         accessToken := some (generateAccessToken (createJwtPayload user.id a) asec n),
         refreshCookie := some (generateRefreshToken (createJwtPayload user.id r) rsec n) },
       upsertHashOfRefreshTokenByUserId rts user.id
         (bhash (generateRefreshToken (createJwtPayload user.id r) rsec n)) r f) := by
  simp [login, hb, he, hp, hrs, has, setRefreshCookie]

/-- Under the same success hypotheses, one login step rewrites to the
upsert of the freshly hashed refresh token. -/
theorem loginStep_eq (env : Env) (users : List User) (rts : List RefreshToken)
    (body : JsValue) (i : LoginInput) (user : User) (rsec asec : String)
    (hb : isObject body = true)
    (he : findUserByEmail users (jsGet body "email") = .ok (some user))
    (hp : compareJs (jsGet body "password") user.hashedPassword = .ok true)
    (hrs : env.refreshTokenSecret = some rsec)
    (has : env.accessTokenSecret = some asec) :
    loginStep env users body rts i =
      upsertHashOfRefreshTokenByUserId rts user.id
        (bhash (refreshTokenOfLogin user rsec i)) i.refreshTokenJti i.freshRecordId := by
  simp [loginStep, refreshTokenOfLogin,
    login_success env users rts body i.accessTokenJti i.refreshTokenJti i.freshRecordId i.now
      user rsec asec hb he hp hrs has]

/-- A sequence of successful logins keeps the single-row invariant of the
store. -/
theorem loginSeq_count_le_one (env : Env) (users : List User) (body : JsValue)
    (user : User) (rsec asec : String) (inputs : List LoginInput)
    (rts : List RefreshToken)
    (hb : isObject body = true)
    (he : findUserByEmail users (jsGet body "email") = .ok (some user))
    (hp : compareJs (jsGet body "password") user.hashedPassword = .ok true)
    (hrs : env.refreshTokenSecret = some rsec)
    (has : env.accessTokenSecret = some asec)
    (hc : countRecordsOfUser rts user.id ≤ 1) :
    countRecordsOfUser (loginSeq env users body rts inputs) user.id ≤ 1 := by
  induction inputs generalizing rts with
  | nil => simpa [loginSeq] using hc
  | cons i rest ih =>
    have hstep : loginStep env users body rts i =
        upsertHashOfRefreshTokenByUserId rts user.id
          (bhash (refreshTokenOfLogin user rsec i)) i.refreshTokenJti i.freshRecordId :=
      loginStep_eq env users rts body i user rsec asec hb he hp hrs has
    have hc1 : countRecordsOfUser (loginStep env users body rts i) user.id ≤ 1 := by
      rw [hstep]
      exact Nat.le_of_eq (count_upsert_refreshToken rts user.id _ _ _ hc)
    simpa [loginSeq, List.foldl_cons] using ih (loginStep env users body rts i) hc1

/-- A token accepted by jwtVerify is a signed token whose secret matches,
whose lifetime has not run out, and whose payload fields it carries. -/
theorem jwtVerify_ok_shape (tok : JwtString) (secret : String) (now : Nat) (p : JwtPayload)
    (h : jwtVerify tok secret now = .ok p) :
    ∃ t : SignedToken, tok = .signed t ∧ t.secret = secret ∧
      ¬(t.iat + t.ttl ≤ now) ∧ p.sub = t.sub ∧ p.jti = t.jti := by
  cases tok with
  | raw s => simp [jwtVerify] at h
  | signed t =>
    refine ⟨t, rfl, ?_⟩
    by_cases hsec : t.secret = secret
    · by_cases hexp : t.iat + t.ttl ≤ now
      · simp [jwtVerify, hsec, hexp] at h
      · simp [jwtVerify, hsec, hexp] at h
        exact ⟨hsec, hexp, by simp [← h], by simp [← h]⟩
    · simp [jwtVerify, hsec] at h

/-- When the presented token misses the stored hash, refresh answers 403
and leaves the store unchanged. -/
theorem refresh_forbidden_hash (env : Env) (users : List User) (rts : List RefreshToken)
    (tok : JwtString) (p : JwtPayload) (rec : RefreshToken) (rsec asec j1 j2 : String)
    (now : Nat)
    (hrs : env.refreshTokenSecret = some rsec)
    (has : env.accessTokenSecret = some asec)
    (hv : jwtVerify tok rsec now = .ok p)
    (hfind : findRefreshTokenByUserId rts p.sub = some rec)
    (hhash : bcompare tok rec.hash = false) :
    refresh env users rts (some tok) j1 j2 now =
      ({ status := 403, message := some "The refresh token is not valid" }, rts) := by
  obtain ⟨t, htok, -, -, -, -⟩ := jwtVerify_ok_shape tok rsec now p hv
  subst htok
  simp [refresh, JwtString.isEmpty, hrs, has, hv, hfind, hhash]

/-- When the presented token matches the stored hash but its jti differs
from the stored jti, refresh answers 403 and leaves the store unchanged. -/
theorem refresh_forbidden_jti (env : Env) (users : List User) (rts : List RefreshToken)
    (tok : JwtString) (p : JwtPayload) (rec : RefreshToken) (rsec asec j1 j2 : String)
    (now : Nat)
    (hrs : env.refreshTokenSecret = some rsec)
    (has : env.accessTokenSecret = some asec)
    (hv : jwtVerify tok rsec now = .ok p)
    (hfind : findRefreshTokenByUserId rts p.sub = some rec)
    (hhash : bcompare tok rec.hash = true)
    (hjti : p.jti ≠ rec.jti) :
    refresh env users rts (some tok) j1 j2 now =
      ({ status := 403, message := some "The refresh token is not valid" }, rts) := by
  obtain ⟨t, htok, -, -, -, -⟩ := jwtVerify_ok_shape tok rsec now p hv
  subst htok
  simp [refresh, JwtString.isEmpty, hrs, has, hv, hfind, hhash, hjti]

/-- When every check passes, refresh answers 200 with fresh tokens in the
body, passes the OLD presented token to setRefreshCookie, and rewrites the
stored row to the new hash and jti. -/
theorem refresh_success (env : Env) (users : List User) (rts : List RefreshToken)
    (tok : JwtString) (p : JwtPayload) (rec : RefreshToken) (u : User)
    (rsec asec j1 j2 : String) (now : Nat)
    (hrs : env.refreshTokenSecret = some rsec)
    (has : env.accessTokenSecret = some asec)
    (hv : jwtVerify tok rsec now = .ok p)
    (hfind : findRefreshTokenByUserId rts p.sub = some rec)
    (hhash : bcompare tok rec.hash = true)
    (hjti : p.jti = rec.jti)
    (huser : findUserById users p.sub = some u) :
    ∃ rts1,
      updateHashOfRefreshTokenByUserId rts p.sub
        (bhash (generateRefreshToken (createJwtPayload p.sub j2) rsec now)) j2 = some rts1 ∧
      refresh env users rts (some tok) j1 j2 now =
        ({ status := 200,
           accessToken := some (generateAccessToken (createJwtPayload p.sub j1) asec now),
           refreshTokenBody := some (generateRefreshToken (createJwtPayload p.sub j2) rsec now),
           refreshCookie := some tok }, rts1) ∧
      findRefreshTokenByUserId rts1 p.sub =
        some { rec with
               hash := bhash (generateRefreshToken (createJwtPayload p.sub j2) rsec now),
               jti := j2 } := by
  obtain ⟨t, htok, -, -, -, -⟩ := jwtVerify_ok_shape tok rsec now p hv
  obtain ⟨rts1, hup, hfind1⟩ := find_update_refreshToken rts p.sub rec
    (bhash (generateRefreshToken (createJwtPayload p.sub j2) rsec now)) j2 hfind
  refine ⟨rts1, hup, ?_, hfind1⟩
  subst htok
  simp [refresh, JwtString.isEmpty, hrs, has, hv, hfind, hhash, hjti, hup, huser,
    setRefreshCookie]

/-! Claim theorems. -/

/-- C1: on a successful refresh the handler mints fresh jtis, signs both
tokens, updates the stored row in place and returns both new tokens with
status 200 — but the cookie written through setRefreshCookie carries the
OLD presented refresh token, not the new one, contradicting the claim, the
spec and the doc comment of the handler itself. The run below shows a full
successful refresh whose response cookie equals the presented token and
differs from the new refresh token in the body. -/
theorem refresh_success_sets_old_cookie :
    refresh envC [aliceC] [recC] (some tokC) "na" "nr" 0 =
      ({ status := 200,
         accessToken := some (JwtString.signed ⟨"u1", "na", "as", 0, 900⟩),
         refreshTokenBody := some (JwtString.signed ⟨"u1", "nr", "rs", 0, 604800⟩),
         refreshCookie := some tokC },
       [{ id := "r1", hash := bhash (JwtString.signed ⟨"u1", "nr", "rs", 0, 604800⟩),
          jti := "nr", userId := "u1" }]) ∧
    some tokC ≠ some (JwtString.signed ⟨"u1", "nr", "rs", 0, 604800⟩) := by
  exact ⟨by decide, by decide⟩

/-- C2: once a refresh call has accepted a token and rotated the stored
row, a second refresh call presenting the same token against the resulting
store answers 403: the stored hash now belongs to the freshly minted
refresh token, whose jti is fresh, so the bcrypt comparison of the old
token against the new stored hash fails. -/
theorem refresh_used_token_rejected
    (env : Env) (users : List User) (rts : List RefreshToken)
    (tok : JwtString) (p : JwtPayload) (rec : RefreshToken) (u : User)
    (rsec asec j1 j2 j3 j4 : String) (now now2 : Nat)
    (hrs : env.refreshTokenSecret = some rsec)
    (has : env.accessTokenSecret = some asec)
    (hv : jwtVerify tok rsec now = .ok p)
    (hfind : findRefreshTokenByUserId rts p.sub = some rec)
    (hhash : bcompare tok rec.hash = true)
    (hjti : p.jti = rec.jti)
    (huser : findUserById users p.sub = some u)
    (hfresh : j2 ≠ p.jti)
    (hv2 : jwtVerify tok rsec now2 = .ok p) :
    (refresh env users rts (some tok) j1 j2 now).1.status = 200 ∧
    refresh env users (refresh env users rts (some tok) j1 j2 now).2 (some tok) j3 j4 now2 =
      ({ status := 403, message := some "The refresh token is not valid" },
       (refresh env users rts (some tok) j1 j2 now).2) := by
  obtain ⟨rts1, hup, heq1, hfind1⟩ :=
    refresh_success env users rts tok p rec u rsec asec j1 j2 now hrs has hv hfind hhash hjti huser
  have hne : tok ≠ generateRefreshToken (createJwtPayload p.sub j2) rsec now := by
    obtain ⟨t, htok, -, -, -, hpj⟩ := jwtVerify_ok_shape tok rsec now p hv
    subst htok
    intro heq
    simp [generateRefreshToken, jwtSign, createJwtPayload] at heq
    exact hfresh (hpj.symm ▸ congrArg SignedToken.jti heq).symm
  have hhash2 : bcompare tok
      (bhash (generateRefreshToken (createJwtPayload p.sub j2) rsec now)) = false :=
    bcompare_bhash_ne _ _ hne
  rw [heq1]
  exact ⟨rfl,
    refresh_forbidden_hash env users rts1 tok p _ rsec asec j3 j4 now2 hrs has hv2 hfind1 hhash2⟩

/-- Witness for C2: a concrete successful refresh of tokC followed by a
second refresh with the same token, which answers 403. -/
theorem refresh_used_token_rejected_witness :
    (refresh envC [aliceC] [recC] (some tokC) "na" "nr" 0).1.status = 200 ∧
    refresh envC [aliceC] (refresh envC [aliceC] [recC] (some tokC) "na" "nr" 0).2
        (some tokC) "nb" "ns" 1 =
      ({ status := 403, message := some "The refresh token is not valid" },
       (refresh envC [aliceC] [recC] (some tokC) "na" "nr" 0).2) :=
  refresh_used_token_rejected envC [aliceC] [recC] tokC ⟨"u1", "j0"⟩ recC aliceC
    "rs" "as" "na" "nr" "nb" "ns" 0 1
    (by decide) (by decide) (by rfl) (by decide) (by decide) (by decide)
    (by decide) (by decide) (by rfl)

/-- C3: after any nonempty sequence of successful logins of one user,
exactly one refresh-token row exists for that user (login upserts, so the
prior hash and jti are replaced, not appended), the token of the most
recent login passes the hash and jti checks of refresh (a full refresh
answers 200), and the token of every earlier login answers 403. -/
theorem login_sequence_single_session
    (env : Env) (users : List User) (rts0 : List RefreshToken) (body : JsValue)
    (user uu : User) (rsec asec : String)
    (inits : List LoginInput) (last : LoginInput)
    (ja jb : String) (nowR : Nat)
    (hb : isObject body = true)
    (he : findUserByEmail users (jsGet body "email") = .ok (some user))
    (hp : compareJs (jsGet body "password") user.hashedPassword = .ok true)
    (hrs : env.refreshTokenSecret = some rsec)
    (has : env.accessTokenSecret = some asec)
    (hc0 : countRecordsOfUser rts0 user.id ≤ 1)
    (huser : findUserById users user.id = some uu)
    (hexp : nowR < last.now + 7 * 24 * 60 * 60)
    (hfresh : ∀ i ∈ inits, i.refreshTokenJti ≠ last.refreshTokenJti)
    (hexp2 : ∀ i ∈ inits, nowR < i.now + 7 * 24 * 60 * 60) :
    countRecordsOfUser (loginSeq env users body rts0 (inits ++ [last])) user.id = 1 ∧
    (refresh env users (loginSeq env users body rts0 (inits ++ [last]))
      (some (refreshTokenOfLogin user rsec last)) ja jb nowR).1.status = 200 ∧
    ∀ i ∈ inits,
      (refresh env users (loginSeq env users body rts0 (inits ++ [last]))
        (some (refreshTokenOfLogin user rsec i)) ja jb nowR).1.status = 403 := by
  have hmid : countRecordsOfUser (loginSeq env users body rts0 inits) user.id ≤ 1 :=
    loginSeq_count_le_one env users body user rsec asec inits rts0 hb he hp hrs has hc0
  have happ : loginSeq env users body rts0 (inits ++ [last]) =
      upsertHashOfRefreshTokenByUserId (loginSeq env users body rts0 inits) user.id
        (bhash (refreshTokenOfLogin user rsec last)) last.refreshTokenJti
        last.freshRecordId := by
    have h1 : loginSeq env users body rts0 (inits ++ [last]) =
        loginStep env users body (loginSeq env users body rts0 inits) last := by
      simp [loginSeq, List.foldl_append]
    rw [h1]
    exact loginStep_eq env users (loginSeq env users body rts0 inits) body last
      user rsec asec hb he hp hrs has
  obtain ⟨recF, hfindF, hh, hj⟩ :=
    find_upsert_refreshToken (loginSeq env users body rts0 inits) user.id
      (bhash (refreshTokenOfLogin user rsec last)) last.refreshTokenJti last.freshRecordId
  refine ⟨?_, ?_, ?_⟩
  · rw [happ]
    exact count_upsert_refreshToken _ _ _ _ _ hmid
  · have hvlast : jwtVerify (refreshTokenOfLogin user rsec last) rsec nowR =
        .ok (createJwtPayload user.id last.refreshTokenJti) := by
      have hx : ¬(last.now + 7 * 24 * 60 * 60 ≤ nowR) := by omega
      simp [refreshTokenOfLogin, generateRefreshToken, jwtSign, createJwtPayload,
        jwtVerify, hx]
    obtain ⟨rts1, -, heq, -⟩ :=
      refresh_success env users (loginSeq env users body rts0 (inits ++ [last]))
        (refreshTokenOfLogin user rsec last)
        (createJwtPayload user.id last.refreshTokenJti) recF uu
        rsec asec ja jb nowR hrs has hvlast
        (by rw [happ]; exact hfindF)
        (by rw [hh]; exact bcompare_bhash_self _)
        hj.symm huser
    rw [heq]
  · intro i hi
    have hvi : jwtVerify (refreshTokenOfLogin user rsec i) rsec nowR =
        .ok (createJwtPayload user.id i.refreshTokenJti) := by
      have hx : ¬(i.now + 7 * 24 * 60 * 60 ≤ nowR) := by
        have := hexp2 i hi
        omega
      simp [refreshTokenOfLogin, generateRefreshToken, jwtSign, createJwtPayload,
        jwtVerify, hx]
    have hne : refreshTokenOfLogin user rsec i ≠ refreshTokenOfLogin user rsec last := by
      intro heq
      exact hfresh i hi (congrArg SignedToken.jti (JwtString.signed.inj heq))
    have hhashF : bcompare (refreshTokenOfLogin user rsec i) recF.hash = false := by
      rw [hh]
      exact bcompare_bhash_ne _ _ hne
    have hforb :=
      refresh_forbidden_hash env users (loginSeq env users body rts0 (inits ++ [last]))
        (refreshTokenOfLogin user rsec i) (createJwtPayload user.id i.refreshTokenJti)
        recF rsec asec ja jb nowR hrs has hvi
        (by rw [happ]; exact hfindF) hhashF
    rw [hforb]

/-- Witness for C3: two concrete sequential logins of aliceC; afterwards
exactly one row is stored, the second login token refreshes with 200, and
the first login token is answered 403. -/
theorem login_sequence_single_session_witness :
    countRecordsOfUser
      (loginSeq envC [aliceC]
        (JsValue.obj [("email", JsValue.str "alice@example"), ("password", JsValue.str "pw")])
        [] ([⟨"a1", "r1", "f1", 0⟩] ++ [⟨"a2", "r2", "f2", 1⟩])) "u1" = 1 ∧
    (refresh envC [aliceC]
      (loginSeq envC [aliceC]
        (JsValue.obj [("email", JsValue.str "alice@example"), ("password", JsValue.str "pw")])
        [] ([⟨"a1", "r1", "f1", 0⟩] ++ [⟨"a2", "r2", "f2", 1⟩]))
      (some (refreshTokenOfLogin aliceC "rs" ⟨"a2", "r2", "f2", 1⟩)) "ja" "jb" 2).1.status = 200 ∧
    (refresh envC [aliceC]
      (loginSeq envC [aliceC]
        (JsValue.obj [("email", JsValue.str "alice@example"), ("password", JsValue.str "pw")])
        [] ([⟨"a1", "r1", "f1", 0⟩] ++ [⟨"a2", "r2", "f2", 1⟩]))
      (some (refreshTokenOfLogin aliceC "rs" ⟨"a1", "r1", "f1", 0⟩)) "ja" "jb" 2).1.status = 403 := by
  have h := login_sequence_single_session envC [aliceC] []
    (JsValue.obj [("email", JsValue.str "alice@example"), ("password", JsValue.str "pw")])
    aliceC aliceC "rs" "as" [⟨"a1", "r1", "f1", 0⟩] ⟨"a2", "r2", "f2", 1⟩ "ja" "jb" 2
    (by decide) (by rfl) (by rfl) (by rfl) (by rfl) (by decide) (by decide)
    (by decide) (by decide) (by decide)
  refine ⟨?_, ?_, ?_⟩
  · have := h.1
    simpa [aliceC] using this
  · exact h.2.1
  · exact h.2.2 ⟨"a1", "r1", "f1", 0⟩ (by decide)

/-- C4 counterexample: a refresh call whose cookie holds a token signed
with the wrong secret answers 500, not the 401 the claim states: jwt.verify
sits inside the try block of the handler and its failure is caught by the
generic catch. -/
theorem refresh_invalid_signature_answers_500 :
    (refresh envC [] [] (some (JwtString.signed ⟨"u1", "j0", "xx", 0, 900⟩)) "a" "b" 0).1.status
      = 500 ∧
    (refresh envC [] [] (some (JwtString.signed ⟨"u1", "j0", "xx", 0, 900⟩)) "a" "b" 0).1.status
      ≠ 401 := by
  exact ⟨by decide, by decide⟩

/-- C4 amended: the refresh failure statuses of the code are 401 for a
missing or empty cookie; 500 for a token whose signature is invalid or
which is expired (the verify exception lands in the generic catch); 403
when no row is stored for the subject; 403 when the presented token misses
the stored hash; and 403 when its jti differs from the stored jti. -/
theorem refresh_failure_statuses :
    (∀ (env : Env) (users : List User) (rts : List RefreshToken) (j1 j2 : String) (now : Nat),
      (refresh env users rts none j1 j2 now).1.status = 401) ∧
    (∀ (env : Env) (users : List User) (rts : List RefreshToken) (tok : JwtString)
        (j1 j2 : String) (now : Nat), tok.isEmpty = true →
      (refresh env users rts (some tok) j1 j2 now).1.status = 401) ∧
    (∀ (env : Env) (users : List User) (rts : List RefreshToken) (tok : JwtString)
        (rsec : String) (e : JwtError) (j1 j2 : String) (now : Nat),
      env.refreshTokenSecret = some rsec → tok.isEmpty = false →
      jwtVerify tok rsec now = .error e →
      (refresh env users rts (some tok) j1 j2 now).1.status = 500) ∧
    (∀ (env : Env) (users : List User) (rts : List RefreshToken) (tok : JwtString)
        (rsec asec : String) (p : JwtPayload) (j1 j2 : String) (now : Nat),
      env.refreshTokenSecret = some rsec → env.accessTokenSecret = some asec →
      jwtVerify tok rsec now = .ok p → findRefreshTokenByUserId rts p.sub = none →
      (refresh env users rts (some tok) j1 j2 now).1.status = 403) ∧
    (∀ (env : Env) (users : List User) (rts : List RefreshToken) (tok : JwtString)
        (rsec asec : String) (p : JwtPayload) (rec : RefreshToken) (j1 j2 : String) (now : Nat),
      env.refreshTokenSecret = some rsec → env.accessTokenSecret = some asec →
      jwtVerify tok rsec now = .ok p → findRefreshTokenByUserId rts p.sub = some rec →
      bcompare tok rec.hash = false →
      (refresh env users rts (some tok) j1 j2 now).1.status = 403) ∧
    (∀ (env : Env) (users : List User) (rts : List RefreshToken) (tok : JwtString)
        (rsec asec : String) (p : JwtPayload) (rec : RefreshToken) (j1 j2 : String) (now : Nat),
      env.refreshTokenSecret = some rsec → env.accessTokenSecret = some asec →
      jwtVerify tok rsec now = .ok p → findRefreshTokenByUserId rts p.sub = some rec →
      bcompare tok rec.hash = true → p.jti ≠ rec.jti →
      (refresh env users rts (some tok) j1 j2 now).1.status = 403) := by
  refine ⟨?_, ?_, ?_, ?_, ?_, ?_⟩
  · intro env users rts j1 j2 now
    simp [refresh]
  · intro env users rts tok j1 j2 now hemp
    simp [refresh, hemp]
  · intro env users rts tok rsec e j1 j2 now hrs hemp hv
    simp [refresh, hemp, hrs, hv]
  · intro env users rts tok rsec asec p j1 j2 now hrs has hv hfind
    obtain ⟨t, htok, -, -, -, -⟩ := jwtVerify_ok_shape tok rsec now p hv
    subst htok
    simp [refresh, JwtString.isEmpty, hrs, has, hv, hfind]
  · intro env users rts tok rsec asec p rec j1 j2 now hrs has hv hfind hhash
    rw [refresh_forbidden_hash env users rts tok p rec rsec asec j1 j2 now
      hrs has hv hfind hhash]
  · intro env users rts tok rsec asec p rec j1 j2 now hrs has hv hfind hhash hjti
    rw [refresh_forbidden_jti env users rts tok p rec rsec asec j1 j2 now
      hrs has hv hfind hhash hjti]

/-- Witness for C4 amended: concrete refresh calls hitting each failure
branch — no cookie, an empty cookie, a wrongly signed token, a subject with
no stored row, a token missing the stored hash, and a matching hash with a
stale jti. -/
theorem refresh_failure_statuses_witness :
    (refresh envC [] [] none "a" "b" 0).1.status = 401 ∧
    (refresh envC [] [] (some (JwtString.raw "")) "a" "b" 0).1.status = 401 ∧
    (refresh envC [] [] (some (JwtString.signed ⟨"u1", "j0", "xx", 0, 900⟩)) "a" "b" 0).1.status
      = 500 ∧
    (refresh envC [] [] (some tokC) "a" "b" 0).1.status = 403 ∧
    (refresh envC [aliceC]
      [⟨"r1", bhash (JwtString.signed ⟨"u1", "zz", "rs", 0, 604800⟩), "j0", "u1"⟩]
      (some tokC) "a" "b" 0).1.status = 403 ∧
    (refresh envC [aliceC] [⟨"r1", bhash tokC, "zz", "u1"⟩]
      (some tokC) "a" "b" 0).1.status = 403 :=
  ⟨refresh_failure_statuses.1 envC [] [] "a" "b" 0,
   refresh_failure_statuses.2.1 envC [] [] (JwtString.raw "") "a" "b" 0 (by decide),
   refresh_failure_statuses.2.2.1 envC [] [] (JwtString.signed ⟨"u1", "j0", "xx", 0, 900⟩)
     "rs" .invalidSignature "a" "b" 0 (by rfl) (by decide) (by rfl),
   refresh_failure_statuses.2.2.2.1 envC [] [] tokC "rs" "as" ⟨"u1", "j0"⟩ "a" "b" 0
     (by rfl) (by rfl) (by rfl) (by rfl),
   refresh_failure_statuses.2.2.2.2.1 envC [aliceC]
     [⟨"r1", bhash (JwtString.signed ⟨"u1", "zz", "rs", 0, 604800⟩), "j0", "u1"⟩]
     tokC "rs" "as" ⟨"u1", "j0"⟩
     ⟨"r1", bhash (JwtString.signed ⟨"u1", "zz", "rs", 0, 604800⟩), "j0", "u1"⟩
     "a" "b" 0 (by rfl) (by rfl) (by rfl) (by rfl) (by decide),
   refresh_failure_statuses.2.2.2.2.2 envC [aliceC] [⟨"r1", bhash tokC, "zz", "u1"⟩]
     tokC "rs" "as" ⟨"u1", "j0"⟩ ⟨"r1", bhash tokC, "zz", "u1"⟩
     "a" "b" 0 (by rfl) (by rfl) (by rfl) (by rfl) (by decide) (by decide)⟩

/-- C5: for object-shaped login bodies, the unknown-email failure and the
wrong-password failure produce exactly the same response — status 401,
byte-identical message, no tokens, no cookie — and leave the store
untouched, so the two causes are indistinguishable on the wire. -/
theorem login_failure_indistinguishable
    (env : Env) (users : List User) (rts : List RefreshToken)
    (b1 b2 : JsValue) (user : User)
    (a1 r1 f1 a2 r2 f2 : String) (n1 n2 : Nat)
    (hb1 : isObject b1 = true)
    (he1 : findUserByEmail users (jsGet b1 "email") = .ok none)
    (hb2 : isObject b2 = true)
    (he2 : findUserByEmail users (jsGet b2 "email") = .ok (some user))
    (hp2 : compareJs (jsGet b2 "password") user.hashedPassword = .ok false) :
    login env users rts b1 a1 r1 f1 n1 = login env users rts b2 a2 r2 f2 n2 ∧
    login env users rts b1 a1 r1 f1 n1 =
      ({ status := 401, message := some "Email or password are incorrect" }, rts) := by
  have h1 : login env users rts b1 a1 r1 f1 n1 =
      ({ status := 401, message := some "Email or password are incorrect" }, rts) := by
    simp [login, hb1, he1]
  have h2 : login env users rts b2 a2 r2 f2 n2 =
      ({ status := 401, message := some "Email or password are incorrect" }, rts) := by
    simp [login, hb2, he2, hp2]
  exact ⟨h1.trans h2.symm, h1⟩

/-- Witness for C5: a concrete unknown email and a concrete wrong password
against the stored user produce identical 401 responses. -/
theorem login_failure_indistinguishable_witness :
    login envC [aliceC] [recC] (JsValue.obj [("email", JsValue.str "nobody@example")])
      "a1" "r1" "f1" 0 =
    login envC [aliceC] [recC]
      (JsValue.obj [("email", JsValue.str "alice@example"), ("password", JsValue.str "wrong")])
      "a2" "r2" "f2" 1 ∧
    login envC [aliceC] [recC] (JsValue.obj [("email", JsValue.str "nobody@example")])
      "a1" "r1" "f1" 0 =
      ({ status := 401, message := some "Email or password are incorrect" }, [recC]) :=
  login_failure_indistinguishable envC [aliceC] [recC]
    (JsValue.obj [("email", JsValue.str "nobody@example")])
    (JsValue.obj [("email", JsValue.str "alice@example"), ("password", JsValue.str "wrong")])
    aliceC "a1" "r1" "f1" "a2" "r2" "f2" 0 1
    (by decide) (by rfl) (by decide) (by rfl) (by rfl)

/-- C6 counterexample: a job application owned by bobC is removed by a
delete request authenticated as aliceC — the delete is keyed on the
application id alone, so a record owned by another user is not left
unchanged as the claim states. -/
theorem delete_removes_other_users_record :
    deleteApplication [aliceC, bobC] [bobAppC] "u1" "app1" = .ok ({ status := 204 }, []) ∧
    bobAppC.userId ≠ "u1" := by
  exact ⟨by rfl, by decide⟩

/-- C6 amended: list and create are scoped to the requesting user, but
update and delete act on the application id alone with no ownership check:
their outcome is the same for any two authenticated requesters, so a record
owned by another user can be modified or removed. -/
theorem applications_update_delete_unscoped
    (users : List User) (apps : List JobApplication) (u1 u2 applicationId : String)
    (body : Option ApplicationUpdate) (w1 w2 : User)
    (h1 : findUserById users u1 = some w1)
    (h2 : findUserById users u2 = some w2) :
    deleteApplication users apps u1 applicationId =
      deleteApplication users apps u2 applicationId ∧
    updateApplication users apps u1 applicationId body =
      updateApplication users apps u2 applicationId body ∧
    ∀ a ∈ getAllApplications apps u1, a.userId = u1 := by
  refine ⟨?_, ?_, ?_⟩
  · cases hdel : deleteApplicationById apps applicationId with
    | none => simp [deleteApplication, hdel]
    | some apps1 => simp [deleteApplication, hdel, h1, h2]
  · cases body with
    | none => simp [updateApplication]
    | some application =>
      cases hup : updateApplicationById apps application applicationId with
      | none => simp [updateApplication, hup]
      | some apps1 => simp [updateApplication, hup, h1, h2]
  · intro a ha
    simp [getAllApplications, findApplicationsByUserId, List.mem_filter] at ha
    exact ha.2

/-- Witness for C6 amended: with aliceC and bobC stored, delete and update
of bobC's application behave identically when requested by either user, and
aliceC's listing only ever holds her own records. -/
theorem applications_update_delete_unscoped_witness :
    deleteApplication [aliceC, bobC] [bobAppC] "u1" "app1" =
      deleteApplication [aliceC, bobC] [bobAppC] "u2" "app1" ∧
    updateApplication [aliceC, bobC] [bobAppC] "u1" "app1" none =
      updateApplication [aliceC, bobC] [bobAppC] "u2" "app1" none ∧
    ∀ a ∈ getAllApplications [bobAppC] "u1", a.userId = "u1" :=
  applications_update_delete_unscoped [aliceC, bobC] [bobAppC] "u1" "u2" "app1" none
    aliceC bobC (by decide) (by decide)

/-- C7 counterexample: a well-formed Bearer header carrying a token signed
with the wrong secret makes authenticateToken throw (the middleware has no
try/catch and nothing in the repository maps the exception to 401), rather
than yield a 401 response as the claim states. -/
theorem authenticateToken_invalid_token_throws :
    authenticateToken envC
      (.header [JwtString.raw "Bearer", JwtString.signed ⟨"u1", "j0", "xx", 0, 900⟩]) 0 =
      .thrown .invalidSignature := by
  decide

/-- C7 amended: a missing Authorization header (or an array of headers)
yields a 401 response, a malformed header — a single word, a scheme other
than Bearer, or an empty token word — yields a 401 response, and a Bearer
token that fails verification makes the verify exception propagate out of
the middleware uncaught. -/
theorem authenticateToken_behaviour :
    (∀ (env : Env) (now : Nat),
      authenticateToken env .missing now =
        .halted { status := 401, message := some "Missing Authorization header" }) ∧
    (∀ (env : Env) (now : Nat),
      authenticateToken env .array now =
        .halted { status := 401, message := some "Missing Authorization header" }) ∧
    (∀ (env : Env) (now : Nat) (w : JwtString),
      authenticateToken env (.header [w]) now =
        .halted { status := 401, message := some "Invalid Authorization header format" }) ∧
    (∀ (env : Env) (now : Nat) (scheme tok : JwtString) (rest : List JwtString),
      scheme ≠ JwtString.raw "Bearer" →
      authenticateToken env (.header (scheme :: tok :: rest)) now =
        .halted { status := 401, message := some "Invalid Authorization header format" }) ∧
    (∀ (env : Env) (now : Nat) (tok : JwtString) (rest : List JwtString),
      tok.isEmpty = true →
      authenticateToken env (.header (JwtString.raw "Bearer" :: tok :: rest)) now =
        .halted { status := 401, message := some "Invalid Authorization header format" }) ∧
    (∀ (env : Env) (now : Nat) (asec : String) (tok : JwtString) (rest : List JwtString)
        (e : JwtError),
      env.accessTokenSecret = some asec → tok.isEmpty = false →
      jwtVerify tok asec now = .error e →
      authenticateToken env (.header (JwtString.raw "Bearer" :: tok :: rest)) now =
        .thrown e) := by
  refine ⟨?_, ?_, ?_, ?_, ?_, ?_⟩
  · intro env now
    simp [authenticateToken]
  · intro env now
    simp [authenticateToken]
  · intro env now w
    simp [authenticateToken]
  · intro env now scheme tok rest hs
    simp [authenticateToken, hs]
  · intro env now tok rest hemp
    simp [authenticateToken, hemp]
  · intro env now asec tok rest e has hemp hv
    simp [authenticateToken, has, hemp, hv]

/-- Witness for C7 amended: concrete requests hitting each middleware
branch — no header, an array, a one-word header, a Basic scheme, an empty
token word, and a wrongly signed Bearer token that is thrown. -/
theorem authenticateToken_behaviour_witness :
    authenticateToken envC .missing 0 =
      .halted { status := 401, message := some "Missing Authorization header" } ∧
    authenticateToken envC .array 0 =
      .halted { status := 401, message := some "Missing Authorization header" } ∧
    authenticateToken envC (.header [JwtString.raw "Bearer"]) 0 =
      .halted { status := 401, message := some "Invalid Authorization header format" } ∧
    authenticateToken envC (.header [JwtString.raw "Basic", JwtString.raw "abc"]) 0 =
      .halted { status := 401, message := some "Invalid Authorization header format" } ∧
    authenticateToken envC (.header [JwtString.raw "Bearer", JwtString.raw ""]) 0 =
      .halted { status := 401, message := some "Invalid Authorization header format" } ∧
    authenticateToken envC
      (.header [JwtString.raw "Bearer", JwtString.signed ⟨"u1", "j0", "yy", 0, 900⟩]) 0 =
      .thrown .invalidSignature :=
  ⟨authenticateToken_behaviour.1 envC 0,
   authenticateToken_behaviour.2.1 envC 0,
   authenticateToken_behaviour.2.2.1 envC 0 (JwtString.raw "Bearer"),
   authenticateToken_behaviour.2.2.2.1 envC 0 (JwtString.raw "Basic") (JwtString.raw "abc") []
     (by decide),
   authenticateToken_behaviour.2.2.2.2.1 envC 0 (JwtString.raw "") [] (by decide),
   authenticateToken_behaviour.2.2.2.2.2 envC 0 "as"
     (JwtString.signed ⟨"u1", "j0", "yy", 0, 900⟩) [] .invalidSignature
     (by rfl) (by decide) (by rfl)⟩

/-- C8: verifying a token issued over a payload with a secret recovers the
subject and jti as long as the token is within its lifetime, and
verification with any other secret fails, for both the access and the
refresh token shape. -/
theorem jwt_roundtrip_and_secret_separation
    (sub jti secret secret2 : String) (now nowA nowR nowX nowY : Nat)
    (hA : nowA < now + 15 * 60)
    (hR : nowR < now + 7 * 24 * 60 * 60)
    (hs : secret2 ≠ secret) :
    jwtVerify (generateAccessToken (createJwtPayload sub jti) secret now) secret nowA =
      .ok ⟨sub, jti⟩ ∧
    jwtVerify (generateRefreshToken (createJwtPayload sub jti) secret now) secret nowR =
      .ok ⟨sub, jti⟩ ∧
    jwtVerify (generateAccessToken (createJwtPayload sub jti) secret now) secret2 nowX =
      .error .invalidSignature ∧
    jwtVerify (generateRefreshToken (createJwtPayload sub jti) secret now) secret2 nowY =
      .error .invalidSignature := by
  have hA2 : ¬(now + 15 * 60 ≤ nowA) := by omega
  have hR2 : ¬(now + 7 * 24 * 60 * 60 ≤ nowR) := by omega
  have hs2 : secret ≠ secret2 := fun h => hs h.symm
  refine ⟨?_, ?_, ?_, ?_⟩
  · simp [generateAccessToken, jwtSign, createJwtPayload, jwtVerify, hA2]
  · simp [generateRefreshToken, jwtSign, createJwtPayload, jwtVerify, hR2]
  · simp [generateAccessToken, jwtSign, createJwtPayload, jwtVerify, hs2]
  · simp [generateRefreshToken, jwtSign, createJwtPayload, jwtVerify, hs2]

/-- Witness for C8: a concrete payload signed with one secret round-trips
under that secret and is rejected under another. -/
theorem jwt_roundtrip_and_secret_separation_witness :
    jwtVerify (generateAccessToken (createJwtPayload "u9" "j9") "k1" 10) "k1" 20 =
      .ok ⟨"u9", "j9"⟩ ∧
    jwtVerify (generateRefreshToken (createJwtPayload "u9" "j9") "k1" 10) "k1" 20 =
      .ok ⟨"u9", "j9"⟩ ∧
    jwtVerify (generateAccessToken (createJwtPayload "u9" "j9") "k1" 10) "k2" 20 =
      .error .invalidSignature ∧
    jwtVerify (generateRefreshToken (createJwtPayload "u9" "j9") "k1" 10) "k2" 20 =
      .error .invalidSignature :=
  jwt_roundtrip_and_secret_separation "u9" "j9" "k1" "k2" 10 20 20 20 20
    (by decide) (by decide) (by decide)

/-- C9: logout answers 400 when the refreshToken cookie is absent or empty;
otherwise it only verifies the signature of the token to recover the
subject — the stored hash and jti are never compared, so any token that
jwt.verify accepts for that user, including one already rotated out,
deletes the stored row, clears the cookie and answers 204. -/
theorem logout_signature_only
    (env : Env) (users : List User) (rts rts1 : List RefreshToken)
    (tok : JwtString) (p : JwtPayload) (u : User) (rsec : String) (now : Nat)
    (hrs : env.refreshTokenSecret = some rsec)
    (hv : jwtVerify tok rsec now = .ok p)
    (hdel : deleteRefreshTokenByUserId rts p.sub = some rts1)
    (hc : countRecordsOfUser rts p.sub ≤ 1)
    (huser : findUserById users p.sub = some u) :
    (∀ (now2 : Nat), logout env users rts none now2 = .ok ({ status := 400 }, rts)) ∧
    (∀ (now2 : Nat) (emptyTok : JwtString), emptyTok.isEmpty = true →
      logout env users rts (some emptyTok) now2 = .ok ({ status := 400 }, rts)) ∧
    logout env users rts (some tok) now =
      .ok ({ status := 204, cookieCleared := true }, rts1) ∧
    findRefreshTokenByUserId rts1 p.sub = none := by
  obtain ⟨t, htok, -, -, -, -⟩ := jwtVerify_ok_shape tok rsec now p hv
  refine ⟨?_, ?_, ?_, find_none_after_delete rts rts1 p.sub hc hdel⟩
  · intro now2
    simp [logout]
  · intro now2 emptyTok hemp
    simp [logout, hemp]
  · subst htok
    simp [logout, JwtString.isEmpty, hrs, hv, hdel, huser]

/-- Witness for C9: a rotated-out concrete token — the stored row holds the
hash and jti of a DIFFERENT token — still logs aliceC out: the row is
deleted, the cookie cleared and 204 returned. -/
theorem logout_signature_only_witness :
    (logout envC [aliceC] [⟨"r1", bhash (JwtString.signed ⟨"u1", "zz", "rs", 5, 604800⟩),
        "zz", "u1"⟩] none 7 =
      .ok ({ status := 400 },
        [⟨"r1", bhash (JwtString.signed ⟨"u1", "zz", "rs", 5, 604800⟩), "zz", "u1"⟩])) ∧
    logout envC [aliceC] [⟨"r1", bhash (JwtString.signed ⟨"u1", "zz", "rs", 5, 604800⟩),
        "zz", "u1"⟩] (some tokC) 7 =
      .ok ({ status := 204, cookieCleared := true }, []) ∧
    findRefreshTokenByUserId ([] : List RefreshToken) "u1" = none := by
  have h := logout_signature_only envC [aliceC]
    [⟨"r1", bhash (JwtString.signed ⟨"u1", "zz", "rs", 5, 604800⟩), "zz", "u1"⟩] []
    tokC ⟨"u1", "j0"⟩ aliceC "rs" 7
    (by rfl) (by rfl) (by rfl) (by decide) (by decide)
  exact ⟨h.1 7, h.2.2.1, h.2.2.2⟩

/-- Once the body gate passes, register never answers 400: every later
branch answers 500 or 201. -/
theorem register_not_400_of_isObject (env : Env) (users : List User)
    (rts : List RefreshToken) (body : JsValue) (fu a r f : String) (now : Nat)
    (hB : isObject body = true) :
    (register env users rts body fu a r f now).1.status ≠ 400 := by
  simp only [register, hB]
  repeat' split
  all_goals simp_all [setRefreshCookie]

/-- Once the body gate passes, login never answers 400: every later branch
answers 500, 401 or 200. -/
theorem login_not_400_of_isObject (env : Env) (users : List User)
    (rts : List RefreshToken) (body : JsValue) (a r f : String) (now : Nat)
    (hB : isObject body = true) :
    (login env users rts body a r f now).1.status ≠ 400 := by
  simp only [login, hB]
  repeat' split
  all_goals simp_all [setRefreshCookie]

/-- C10: the body shape check of register and login accepts every non-null,
non-array value of object type — including the empty object, which has no
username, email or password fields — and 400 is answered exactly when the
body is null, an array, or not of object type. -/
theorem body_gate_accepts_all_objects :
    (∀ (env : Env) (users : List User) (rts : List RefreshToken) (body : JsValue)
        (fu a r f : String) (now : Nat),
      ((register env users rts body fu a r f now).1.status = 400 ↔ isObject body = false)) ∧
    (∀ (env : Env) (users : List User) (rts : List RefreshToken) (body : JsValue)
        (a r f : String) (now : Nat),
      ((login env users rts body a r f now).1.status = 400 ↔ isObject body = false)) ∧
    isObject (JsValue.obj []) = true ∧
    (∀ v : JsValue, isObject v = false ↔
      (jsIsNull v = true ∨ jsIsArray v = true ∨ jsTypeof v ≠ "object")) := by
  refine ⟨?_, ?_, by decide, ?_⟩
  · intro env users rts body fu a r f now
    cases hB : isObject body with
    | false => simp [register, hB]
    | true =>
      have hne := register_not_400_of_isObject env users rts body fu a r f now hB
      simp [hB, hne]
  · intro env users rts body a r f now
    cases hB : isObject body with
    | false => simp [login, hB]
    | true =>
      have hne := login_not_400_of_isObject env users rts body a r f now hB
      simp [hB, hne]
  · intro v
    cases v <;> simp [isObject, jsIsNull, jsIsArray, jsTypeof]
